import Mathlib

/-!
Shallow embedding of the LetMeKnow Python client (`letmeknowclient`),
covering the message envelope codec (`models.py`), the websocket
send/receive primitive, the keep-alive loop and the connect operation
(`lmk.py`).  Wire payloads are modelled as JSON-like values; each
`from_dict` / `to_dict` method of the source is translated directly,
and the stateful websocket code is translated as explicit state
passing over the option-valued handle `_ws`, with the socket
behaviour (send success, next inbound frame) supplied as a parameter
and the socket operations performed recorded as a trace.  Python
exceptions are modelled as `Except` errors.
-/

set_option autoImplicit false

namespace LetMeKnow

/-- JSON-like wire values (the payloads passed through `send_json` /
`response.json()`). -/
inductive JVal where
  | null
  | str (s : String)
  | bool (b : Bool)
  | int (n : Int)
  | obj (fields : List (String × JVal))
  | arr (elems : List JVal)

/-- A wire object: a Python dict with string keys, modelled as an
association list (keys are unique in a Python dict; lookup takes the
first match). -/
abbrev Dict := List (String × JVal)

/-- `d.get(k)` on a Python dict: the value when the key is present,
`none` otherwise. -/
def jget (d : Dict) (k : String) : Option JVal :=
  match d with
  | [] => none
  | (k2, v) :: rest => if k2 = k then some v else jget rest k

/-- `k in d` on a Python dict: key presence. -/
def hasKey (d : Dict) (k : String) : Bool :=
  (jget d k).isSome

/-- Python truthiness of an optional wire value, as used by
`if result.get("image")`: absent, `None`, `False`, `0`, `""`, empty
containers are falsy. -/
def truthy (v : Option JVal) : Bool :=
  match v with
  | none => false
  | some JVal.null => false
  | some (JVal.str s) => !(s = "")
  | some (JVal.bool b) => b
  | some (JVal.int n) => !(n = 0)
  | some (JVal.obj fields) => !fields.isEmpty
  | some (JVal.arr elems) => !elems.isEmpty

/-- A failed decode, i.e. a Python exception escaping a `from_dict`
classmethod: `KeyError` from `result[k]` on a missing key,
`ValueError` from `StrEnum(value)` on an unknown enum value, and a
shape mismatch at the typed boundary of the embedding. -/
inductive DecodeError where
  | keyError (k : String)
  | valueError (v : String)
  | typeError (k : String)
deriving DecidableEq

/-- `result[k]` expected to be a string (`str`-typed field). -/
def reqStr (d : Dict) (k : String) : Except DecodeError String :=
  match jget d k with
  | none => .error (.keyError k)
  | some (JVal.str s) => .ok s
  | some _ => .error (.typeError k)

/-- `result[k]` expected to be a boolean (`bool`-typed field). -/
def reqBool (d : Dict) (k : String) : Except DecodeError Bool :=
  match jget d k with
  | none => .error (.keyError k)
  | some (JVal.bool b) => .ok b
  | some _ => .error (.typeError k)

/-- `result.get(k)` for an `str | None` field: absent and `null` both
become `none`. -/
def asOptStr (v : Option JVal) : Except DecodeError (Option String) :=
  match v with
  | none => .ok none
  | some JVal.null => .ok none
  | some (JVal.str s) => .ok (some s)
  | some _ => .error (.typeError "str")

/-- `result.get(k)` for an `int | None` field. -/
def asOptInt (v : Option JVal) : Except DecodeError (Option Int) :=
  match v with
  | none => .ok none
  | some JVal.null => .ok none
  | some (JVal.int n) => .ok (some n)
  | some _ => .error (.typeError "int")

/-- `str(x)` applied to an `str | None` value: Python renders `None`
as the string `"None"` (`models.py`, `LMKNotification.to_dict`,
`"type": str(self.type)`). -/
def pyStrOfOpt (v : Option String) : String :=
  match v with
  | none => "None"
  | some s => s

/-- Encode an `str | None` field value (`None` becomes `null`). -/
def jOptStr (v : Option String) : JVal :=
  match v with
  | none => JVal.null
  | some s => JVal.str s

/-- Encode an `int | None` field value (`None` becomes `null`). -/
def jOptInt (v : Option Int) : JVal :=
  match v with
  | none => JVal.null
  | some n => JVal.int n

/-- `LMKNotificationImage` (`models.py`): a required `url` string. -/
structure LMKNotificationImage where
  url : String
deriving DecidableEq

/-- `LMKNotificationImage.from_dict`. -/
def LMKNotificationImage.from_dict (d : Dict) :
    Except DecodeError LMKNotificationImage :=
  match jget d "url" with
  | none => .error (.keyError "url")
  | some (JVal.str s) => .ok ⟨s⟩
  | some _ => .error (.typeError "url")

/-- `LMKNotificationImage.to_dict`. -/
def LMKNotificationImage.to_dict (i : LMKNotificationImage) : Dict :=
  [("url", JVal.str i.url)]

/-- `LMKNotification` (`models.py`): all fields optional. -/
structure LMKNotification where
  type : Option String
  title : Option String
  subtitle : Option String
  content : Option String
  image : Option LMKNotificationImage
  timeout : Option Int
deriving DecidableEq

/-- `LMKNotification.from_dict`: `result.get(...)` for the plain
fields, and the image is decoded only when `result.get("image")` is
truthy. -/
def LMKNotification.from_dict (d : Dict) :
    Except DecodeError LMKNotification := do
  let ty ← asOptStr (jget d "type")
  let ti ← asOptStr (jget d "title")
  let su ← asOptStr (jget d "subtitle")
  let co ← asOptStr (jget d "content")
  let im ←
    if truthy (jget d "image") then
      match jget d "image" with
      | some (JVal.obj fields) =>
          Except.map some (LMKNotificationImage.from_dict fields)
      | _ => Except.error (.typeError "image")
    else
      pure none
  let tm ← asOptInt (jget d "timeout")
  return ⟨ty, ti, su, co, im, tm⟩

/-- `LMKNotification.to_dict`: note `"type": str(self.type)` while the
other fields pass through unchanged. -/
def LMKNotification.to_dict (n : LMKNotification) : Dict :=
  [("type", JVal.str (pyStrOfOpt n.type)),
   ("title", jOptStr n.title),
   ("subtitle", jOptStr n.subtitle),
   ("content", jOptStr n.content),
   ("image", match n.image with
             | some i => JVal.obj i.to_dict
             | none => JVal.null),
   ("timeout", jOptInt n.timeout)]

/-- `LMKWSRequestType` (`models.py`): websocket request type tags. -/
inductive LMKWSRequestType where
  | register
  | notification
deriving DecidableEq

/-- `str(enum)` for a request type. -/
def LMKWSRequestType.toStr : LMKWSRequestType → String
  | .register => "register"
  | .notification => "notification"

/-- `LMKWSRequestType(value)`: `none` models the `ValueError` raised
on an unknown value. -/
def LMKWSRequestType.fromString (s : String) : Option LMKWSRequestType :=
  if s = "register" then some .register
  else if s = "notification" then some .notification
  else none

/-- `LMKWSResponseType` (`models.py`): websocket response type tags. -/
inductive LMKWSResponseType where
  | error
  | notificationSent
  | register
  | success
deriving DecidableEq

/-- `str(enum)` for a response type. -/
def LMKWSResponseType.toStr : LMKWSResponseType → String
  | .error => "error"
  | .notificationSent => "notificationSent"
  | .register => "register"
  | .success => "success"

/-- `LMKWSResponseType(value)`: `none` models the `ValueError` raised
on an unknown value. -/
def LMKWSResponseType.fromString (s : String) : Option LMKWSResponseType :=
  if s = "error" then some .error
  else if s = "notificationSent" then some .notificationSent
  else if s = "register" then some .register
  else if s = "success" then some .success
  else none

/-- `LMKWSResponseType(result["type"])` as a fallible step. -/
def parseResponseType (s : String) : Except DecodeError LMKWSResponseType :=
  match LMKWSResponseType.fromString s with
  | some t => .ok t
  | none => .error (.valueError s)

/-- `LMKWSRequestType(result["type"])` as a fallible step. -/
def parseRequestType (s : String) : Except DecodeError LMKWSRequestType :=
  match LMKWSRequestType.fromString s with
  | some t => .ok t
  | none => .error (.valueError s)

/-- `LMKWSRegister` (`models.py`): the REGISTER request envelope. -/
structure LMKWSRegister where
  type : LMKWSRequestType
  user_id : String
deriving DecidableEq

/-- `LMKWSRegister.from_dict`: `result["type"]` and `result["userID"]`
are required, a missing key raises `KeyError`. -/
def LMKWSRegister.from_dict (d : Dict) : Except DecodeError LMKWSRegister :=
  match reqStr d "type" with
  | .error e => .error e
  | .ok tv =>
    match parseRequestType tv with
    | .error e => .error e
    | .ok t =>
      match reqStr d "userID" with
      | .error e => .error e
      | .ok u => .ok ⟨t, u⟩

/-- `LMKWSRegister.to_dict`. -/
def LMKWSRegister.to_dict (r : LMKWSRegister) : Dict :=
  [("type", JVal.str r.type.toStr),
   ("userID", JVal.str r.user_id)]

/-- `LMKWSNotification` (`models.py`): the NOTIFICATION request
envelope. -/
structure LMKWSNotification where
  type : LMKWSRequestType
  data : LMKNotification
  targets : List String
deriving DecidableEq

/-- `LMKWSNotification.to_dict`. -/
def LMKWSNotification.to_dict (w : LMKWSNotification) : Dict :=
  [("type", JVal.str w.type.toStr),
   ("data", JVal.obj w.data.to_dict),
   ("targets", JVal.arr (w.targets.map JVal.str))]

/-- `LMKWSResponseError` (`models.py`): the ERROR response envelope. -/
structure LMKWSResponseError where
  type : LMKWSResponseType
  message : String
  error : String
deriving DecidableEq

/-- `LMKWSResponseError.from_dict`: `result["type"]`,
`result["message"]`, `result["error"]` are all required; a missing key
raises `KeyError`. -/
def LMKWSResponseError.from_dict (d : Dict) :
    Except DecodeError LMKWSResponseError :=
  match reqStr d "type" with
  | .error e => .error e
  | .ok tv =>
    match parseResponseType tv with
    | .error e => .error e
    | .ok t =>
      match reqStr d "message" with
      | .error e => .error e
      | .ok m =>
        match reqStr d "error" with
        | .error e => .error e
        | .ok er => .ok ⟨t, m, er⟩

/-- `LMKWSResponseError.to_dict`. -/
def LMKWSResponseError.to_dict (r : LMKWSResponseError) : Dict :=
  [("type", JVal.str r.type.toStr),
   ("message", JVal.str r.message),
   ("error", JVal.str r.error)]

/-- `LMKWSResponseSuccess` (`models.py`): the success response
envelope. -/
structure LMKWSResponseSuccess where
  type : LMKWSResponseType
  succeeded : Bool
  message : String
deriving DecidableEq

/-- `LMKWSResponseSuccess.from_dict`: `result["type"]`,
`result["succeeded"]`, `result["message"]` are all required; a missing
key raises `KeyError`. -/
def LMKWSResponseSuccess.from_dict (d : Dict) :
    Except DecodeError LMKWSResponseSuccess :=
  match reqStr d "type" with
  | .error e => .error e
  | .ok tv =>
    match parseResponseType tv with
    | .error e => .error e
    | .ok t =>
      match reqBool d "succeeded" with
      | .error e => .error e
      | .ok s =>
        match reqStr d "message" with
        | .error e => .error e
        | .ok m => .ok ⟨t, s, m⟩

/-- The value `_ws_send` returns on success:
`LMKWSResponseSuccess | LMKWSResponseError`. -/
inductive WSResponse where
  | err (e : LMKWSResponseError)
  | success (s : LMKWSResponseSuccess)
deriving DecidableEq

/-- `.type` of either response dataclass (used by `ws_keep_alive` on
the union-typed register response). -/
def respType (r : WSResponse) : LMKWSResponseType :=
  match r with
  | .err e => e.type
  | .success s => s.type

/-- The response decode step of `_ws_send` on a TEXT frame
(`lmk.py` lines 118-125): if the object contains an `error` key it is
decoded as `LMKWSResponseError`, otherwise as
`LMKWSResponseSuccess`. -/
def decodeResponse (d : Dict) : Except DecodeError WSResponse :=
  if hasKey d "error" then
    Except.map WSResponse.err (LMKWSResponseError.from_dict d)
  else
    Except.map WSResponse.success (LMKWSResponseSuccess.from_dict d)

/-- A websocket handle (`aiohttp.ClientWebSocketResponse`): for the
session layer only its `closed` flag matters. -/
structure WSHandle where
  closed : Bool
deriving DecidableEq

/-- The next inbound frame `self._ws.receive()` yields: a TEXT frame
whose `json()` parses to a wire object, one of the close-family
frames, or any other frame type carrying its `.name` (BINARY, PING,
...). -/
inductive WSFrame where
  | text (d : Dict)
  | close
  | closed
  | closing
  | other (name : String)

/-- The socket behaviour a call of `_ws_send` runs against: whether
`send_json` succeeds (`false` models a raised
`ClientConnectionError` / `ConnectionResetError` / `gaierror`), and
the next inbound frame. -/
structure WSBehavior where
  sendOk : Bool
  frame : WSFrame

/-- A socket operation performed by `_ws_send`, recorded in order. -/
inductive SockOp where
  | send (d : Dict)
  | recv

/-- Exceptions the client raises (`exceptions.py`, plus propagated
decode failures). -/
inductive LMKErr where
  | notConnected
  | connectionError
  | decodeError (e : DecodeError)
deriving DecidableEq

/-- `LMKClient.ws_connected` (`lmk.py`): the stored handle exists and
is not closed. -/
def ws_connected (ws : Option WSHandle) : Bool :=
  match ws with
  | none => false
  | some h => !h.closed

/-- `LMKClient._ws_send` (`lmk.py` lines 77-143), with the stored
handle passed in and returned explicitly and the socket operations
traced.  Raising `LMKNotConnectedError` on a missing or closed handle
happens before any socket operation; `wait_for_response` defaults to
`true`; a failed `send_json` raises `LMKConnectionError`; with
`wait_for_response = false` a synthetic success envelope is returned
without receiving; a TEXT frame is decoded via `decodeResponse` (a
decode failure propagates as an exception); a close-family frame
clears the handle and yields a "Connection closed" error envelope;
any other frame yields an "Unused response type" error envelope. -/
def ws_send (ws : Option WSHandle) (beh : WSBehavior) (data : Dict)
    (wait_for_response : Option Bool) :
    Except LMKErr WSResponse × Option WSHandle × List SockOp :=
  match ws with
  | none => (.error .notConnected, none, [])
  | some h =>
    if h.closed then
      (.error .notConnected, some h, [])
    else
      let wfr := wait_for_response.getD true
      if beh.sendOk = false then
        (.error .connectionError, some h, [.send data])
      else if wfr = false then
        (.ok (.success ⟨.success, true, "No response expected"⟩),
         some h, [.send data])
      else
        match beh.frame with
        | .text d =>
            ((decodeResponse d).mapError .decodeError,
             some h, [.send data, .recv])
        | .close =>
            (.ok (.err ⟨.error, "Connection closed", "Connection closed"⟩),
             none, [.send data, .recv])
        | .closed =>
            (.ok (.err ⟨.error, "Connection closed", "Connection closed"⟩),
             none, [.send data, .recv])
        | .closing =>
            (.ok (.err ⟨.error, "Connection closed", "Connection closed"⟩),
             none, [.send data, .recv])
        | .other name =>
            (.ok (.err ⟨.error, "Unused response type", name⟩),
             some h, [.send data, .recv])

/-- `TARGETS_ALL_CLIENTS` (`const.py`). -/
def TARGETS_ALL_CLIENTS : List String := ["client-*"]

/-- The wire object `ws_register` sends (`lmk.py` lines 231-236). -/
def registerDict (user_id : String) : Dict :=
  (LMKWSRegister.mk .register user_id).to_dict

/-- `LMKClient.ws_register` (`lmk.py`): send the REGISTER envelope and
await the reply. -/
def ws_register (ws : Option WSHandle) (beh : WSBehavior)
    (user_id : String) :
    Except LMKErr WSResponse × Option WSHandle × List SockOp :=
  ws_send ws beh (registerDict user_id) none

/-- The wire object `ws_send_notification` sends (`lmk.py` lines
255-266): `targets` defaults to `TARGETS_ALL_CLIENTS` when the caller
passes `None`. -/
def notificationDict (n : LMKNotification)
    (targets : Option (List String)) : Dict :=
  (LMKWSNotification.mk .notification n
    (targets.getD TARGETS_ALL_CLIENTS)).to_dict

/-- `LMKClient.ws_send_notification` (`lmk.py`): send the NOTIFICATION
envelope and await the reply. -/
def ws_send_notification (ws : Option WSHandle) (beh : WSBehavior)
    (n : LMKNotification) (targets : Option (List String)) :
    Except LMKErr WSResponse × Option WSHandle × List SockOp :=
  ws_send ws beh (notificationDict n targets) none

/-- The outcome of the handshake attempt inside `ws_connect`: either a
new open handle, or one of the caught exceptions (timeout, handshake
failure, connection failure), which `ws_connect` re-raises as
`LMKConnectionError`. -/
inductive ConnectOutcome where
  | ok (h : WSHandle)
  | fail
deriving DecidableEq

/-- `LMKClient.ws_connect` (`lmk.py` lines 156-195): on success the
handle is stored in `_ws` and the function returns `True` (its only
`return` statement); on failure it raises `LMKConnectionError`. -/
def ws_connect (res : ConnectOutcome) :
    Except LMKErr (Bool × Option WSHandle) :=
  match res with
  | .ok h => .ok (true, some h)
  | .fail => .error .connectionError

/-- How one reconnect pass of `ws_keep_alive` ends. -/
inductive KeepAliveResult where
  | failedReconnect
  | failedRegister
  | reconnected
deriving DecidableEq

/-- One reconnect pass of `LMKClient.ws_keep_alive` (`lmk.py` lines
197-219), after the polling `while` loop has observed the connection
closed, parameterised by the outcomes of the awaited `ws_connect` and
`ws_register` calls.  There is no `try`/`except` in the source: an
exception from either call propagates.  A falsy `ws_connect` return
logs and returns (`failedReconnect`); a register response whose type
is not REGISTER logs and returns (`failedRegister`); otherwise the
function recurses (`reconnected`). -/
def ws_keep_alive_step (connectRes : Except LMKErr Bool)
    (registerRes : Except LMKErr WSResponse) :
    Except LMKErr KeepAliveResult :=
  match connectRes with
  | .error e => .error e
  | .ok b =>
    if !b then .ok .failedReconnect
    else
      match registerRes with
      | .error e => .error e
      | .ok r =>
        if respType r ≠ LMKWSResponseType.register then .ok .failedRegister
        else .ok .reconnected

/-- Claim C1 (the code evaluated at the failing input): decoding the
encoding of the notification with all optional fields absent does NOT
yield the original value — `to_dict` renders the absent `type` as the
string `"None"` (`str(self.type)`), so the round-trip produces
`type = "None"` instead of `type = None`. -/
theorem c1_roundtrip_fails_on_all_none :
    LMKNotification.from_dict
        (LMKNotification.to_dict ⟨none, none, none, none, none, none⟩)
      = Except.ok ⟨some "None", none, none, none, none, none⟩
    ∧ LMKNotification.from_dict
        (LMKNotification.to_dict ⟨none, none, none, none, none, none⟩)
      ≠ Except.ok ⟨none, none, none, none, none, none⟩ := by
  refine ⟨rfl, ?_⟩
  intro hcontra
  injection hcontra with hv
  exact Option.noConfusion (congrArg LMKNotification.type hv)

/-- Claim C3 counterexample: when the server replies to REGISTER with
the minimal wire object with only a `type` key, `ws_register` raises
(the success decoder's `result["succeeded"]` fails with `KeyError`)
instead of returning a REGISTER-tagged envelope. -/
theorem c3_minimal_register_ack_raises :
    ws_register (some ⟨false⟩)
        ⟨true, WSFrame.text [("type", JVal.str "register")]⟩ "user-1"
      = (Except.error (LMKErr.decodeError (DecodeError.keyError "succeeded")),
         some ⟨false⟩,
         [SockOp.send (registerDict "user-1"), SockOp.recv]) := by
  rfl

/-- Claim C3 amended: if the server replies to REGISTER with a wire
object carrying `type`, `succeeded` and `message`, then `ws_register`
returns the REGISTER-tagged success envelope without raising; the
minimal reply with only `type` is instead rejected by the decoder and
the decode failure propagates out of `ws_register`. -/
theorem c3_full_register_ack_returns (u m : String) (b : Bool) :
    ws_register (some ⟨false⟩)
        ⟨true, WSFrame.text
          [("type", JVal.str "register"),
           ("succeeded", JVal.bool b),
           ("message", JVal.str m)]⟩ u
      = (Except.ok (WSResponse.success ⟨LMKWSResponseType.register, b, m⟩),
         some ⟨false⟩,
         [SockOp.send (registerDict u), SockOp.recv]) := by
  rfl

/-- Witness for the amended C3 at a concrete full REGISTER ack. -/
theorem c3_full_register_ack_returns_witness :
    ws_register (some ⟨false⟩)
        ⟨true, WSFrame.text
          [("type", JVal.str "register"),
           ("succeeded", JVal.bool true),
           ("message", JVal.str "Registered")]⟩ "user-1"
      = (Except.ok (WSResponse.success
          ⟨LMKWSResponseType.register, true, "Registered"⟩),
         some ⟨false⟩,
         [SockOp.send (registerDict "user-1"), SockOp.recv]) :=
  c3_full_register_ack_returns "user-1" "Registered" true

/-- Claim C4 counterexample: a failure at the reconnect step of the
keep-alive loop is NOT caught — when `ws_connect` raises
`LMKConnectionError`, that exception escapes `ws_keep_alive` (there is
no `try`/`except` around the call). -/
theorem c4_connect_failure_escapes :
    ws_keep_alive_step (Except.error LMKErr.connectionError)
        (Except.ok (WSResponse.success ⟨LMKWSResponseType.register, true, "ok"⟩))
      = Except.error LMKErr.connectionError := by
  rfl

/-- Claim C4 amended: the keep-alive loop logs and terminates without
raising only on the two non-exceptional failure signals (a falsy
`ws_connect` return, or a register response whose type is not
REGISTER); an exception raised by `ws_connect` or by `ws_register`
propagates out of `ws_keep_alive`. -/
theorem c4_keep_alive_failure_handling :
    (∀ (b : Bool) (r : WSResponse),
        ∃ k, ws_keep_alive_step (Except.ok b) (Except.ok r) = Except.ok k)
    ∧ (∀ (e : LMKErr) (reg : Except LMKErr WSResponse),
        ws_keep_alive_step (Except.error e) reg = Except.error e)
    ∧ (∀ e : LMKErr,
        ws_keep_alive_step (Except.ok true) (Except.error e)
          = Except.error e) := by
  refine ⟨?_, ?_, ?_⟩
  · intro b r
    cases b with
    | false => exact ⟨.failedReconnect, rfl⟩
    | true =>
      by_cases hr : respType r = LMKWSResponseType.register
      · exact ⟨.reconnected, by simp [ws_keep_alive_step, hr]⟩
      · exact ⟨.failedRegister, by simp [ws_keep_alive_step, hr]⟩
  · intro e reg
    rfl
  · intro e
    rfl

/-- Claim C5: `_ws_send` on a session whose websocket handle is `None`
or closed fails immediately with `LMKNotConnectedError`: it leaves the
handle unchanged and performs no socket operation (no write, no
read, no blocking receive). -/
theorem c5_send_not_connected :
    (∀ (beh : WSBehavior) (data : Dict) (w : Option Bool),
        ws_send none beh data w = (Except.error LMKErr.notConnected, none, []))
    ∧ (∀ (h : WSHandle) (beh : WSBehavior) (data : Dict) (w : Option Bool),
        h.closed = true →
        ws_send (some h) beh data w
          = (Except.error LMKErr.notConnected, some h, [])) := by
  constructor
  · intro beh data w
    rfl
  · intro h beh data w hc
    simp [ws_send, hc]

/-- Witness for C5 at a concrete closed handle. -/
theorem c5_send_not_connected_witness :
    ws_send (some ⟨true⟩) ⟨true, WSFrame.close⟩ [] none
      = (Except.error LMKErr.notConnected, some ⟨true⟩, []) :=
  c5_send_not_connected.2 ⟨true⟩ ⟨true, WSFrame.close⟩ [] none rfl

/-- Claim C6: `_ws_send` with `wait_for_response=False` on a connected
session writes the payload and returns the synthetic GENERIC_SUCCESS
envelope with message "No response expected"; the trace contains the
single write and no read. -/
theorem c6_fire_and_forget (h : WSHandle) (beh : WSBehavior) (data : Dict)
    (hc : h.closed = false) (hs : beh.sendOk = true) :
    ws_send (some h) beh data (some false)
      = (Except.ok (WSResponse.success
          ⟨LMKWSResponseType.success, true, "No response expected"⟩),
         some h, [SockOp.send data]) := by
  simp [ws_send, hc, hs]

/-- Witness for C6 at a concrete open handle. -/
theorem c6_fire_and_forget_witness :
    ws_send (some ⟨false⟩) ⟨true, WSFrame.close⟩ [] (some false)
      = (Except.ok (WSResponse.success
          ⟨LMKWSResponseType.success, true, "No response expected"⟩),
         some ⟨false⟩, [SockOp.send []]) :=
  c6_fire_and_forget ⟨false⟩ ⟨true, WSFrame.close⟩ [] rfl rfl

/-- Claim C7: if the inbound frame while `_ws_send` awaits a reply is
a close/closed/closing frame, the call returns an ERROR envelope with
message "Connection closed" and clears the stored handle, so
`ws_connected` reports false on the resulting state. -/
theorem c7_close_frame_clears_handle (h : WSHandle) (data : Dict)
    (f : WSFrame) (hc : h.closed = false)
    (hf : f = WSFrame.close ∨ f = WSFrame.closed ∨ f = WSFrame.closing) :
    ws_send (some h) ⟨true, f⟩ data none
      = (Except.ok (WSResponse.err
          ⟨LMKWSResponseType.error, "Connection closed", "Connection closed"⟩),
         none, [SockOp.send data, SockOp.recv])
    ∧ ws_connected (ws_send (some h) ⟨true, f⟩ data none).2.1 = false := by
  rcases hf with rfl | rfl | rfl <;>
    exact ⟨by simp [ws_send, hc], by simp [ws_send, hc, ws_connected]⟩

/-- Witness for C7 at a concrete open handle and a CLOSE frame. -/
theorem c7_close_frame_clears_handle_witness :
    ws_send (some ⟨false⟩) ⟨true, WSFrame.close⟩ [] none
      = (Except.ok (WSResponse.err
          ⟨LMKWSResponseType.error, "Connection closed", "Connection closed"⟩),
         none, [SockOp.send [], SockOp.recv])
    ∧ ws_connected (ws_send (some ⟨false⟩) ⟨true, WSFrame.close⟩ [] none).2.1
        = false :=
  c7_close_frame_clears_handle ⟨false⟩ [] WSFrame.close rfl (Or.inl rfl)

/-- Claim C2: whenever the wire object of a text frame contains an
`error` key, the decode step of `_ws_send` yields the ERROR envelope
variant (`LMKWSResponseError`) whatever the `type` field holds —
the `error`-key check precedes any look at `type`. -/
theorem c2_error_key_decodes_as_error (d : Dict) (r : WSResponse)
    (hk : hasKey d "error" = true)
    (hr : decodeResponse d = Except.ok r) :
    ∃ e, r = WSResponse.err e := by
  unfold decodeResponse at hr
  rw [hk] at hr
  simp only [if_true] at hr
  cases hfd : LMKWSResponseError.from_dict d with
  | error e =>
    rw [hfd] at hr
    exact absurd hr (by simp [Except.map])
  | ok e =>
    rw [hfd] at hr
    simp only [Except.map] at hr
    exact ⟨e, by injection hr with hv; exact hv.symm⟩

/-- Witness for C2: an object with `type:"success"` and an `error` key
decodes to the ERROR envelope. -/
theorem c2_error_key_decodes_as_error_witness :
    ∃ e, WSResponse.err ⟨LMKWSResponseType.success, "m", "boom"⟩
          = WSResponse.err e :=
  c2_error_key_decodes_as_error
    [("type", JVal.str "success"), ("message", JVal.str "m"),
     ("error", JVal.str "boom")]
    (WSResponse.err ⟨LMKWSResponseType.success, "m", "boom"⟩) rfl rfl

/-- Looking up a key that is absent raises `KeyError`. -/
theorem reqStr_of_missing_key (d : Dict) (k : String)
    (h : hasKey d k = false) :
    reqStr d k = Except.error (DecodeError.keyError k) := by
  unfold reqStr
  cases hj : jget d k with
  | none => rfl
  | some v =>
    exfalso
    unfold hasKey at h
    rw [hj] at h
    simp at h

/-- Claim C9: an inbound wire object missing a required field of its
resolved variant is rejected with a decode failure (`KeyError`), never
partially decoded into an envelope: an ERROR object without `message`
or without `error`, and a REGISTER request object without `userID`. -/
theorem c9_missing_field_rejected :
    (∀ d : Dict, hasKey d "message" = false →
        ∃ e, LMKWSResponseError.from_dict d = Except.error e)
    ∧ (∀ d : Dict, hasKey d "error" = false →
        ∃ e, LMKWSResponseError.from_dict d = Except.error e)
    ∧ (∀ d : Dict, hasKey d "userID" = false →
        ∃ e, LMKWSRegister.from_dict d = Except.error e) := by
  refine ⟨?_, ?_, ?_⟩
  · intro d hm
    unfold LMKWSResponseError.from_dict
    split
    · next e _ => exact ⟨e, rfl⟩
    · next tv _ =>
      split
      · next e _ => exact ⟨e, rfl⟩
      · next t _ =>
        rw [reqStr_of_missing_key d "message" hm]
        exact ⟨DecodeError.keyError "message", rfl⟩
  · intro d he
    unfold LMKWSResponseError.from_dict
    split
    · next e _ => exact ⟨e, rfl⟩
    · next tv _ =>
      split
      · next e _ => exact ⟨e, rfl⟩
      · next t _ =>
        split
        · next e _ => exact ⟨e, rfl⟩
        · next m _ =>
          rw [reqStr_of_missing_key d "error" he]
          exact ⟨DecodeError.keyError "error", rfl⟩
  · intro d hu
    unfold LMKWSRegister.from_dict
    split
    · next e _ => exact ⟨e, rfl⟩
    · next tv _ =>
      split
      · next e _ => exact ⟨e, rfl⟩
      · next t _ =>
        rw [reqStr_of_missing_key d "userID" hu]
        exact ⟨DecodeError.keyError "userID", rfl⟩

/-- Witness for C9: an ERROR object without `message` is rejected. -/
theorem c9_missing_field_rejected_witness :
    ∃ e, LMKWSResponseError.from_dict
        [("type", JVal.str "error"), ("error", JVal.str "boom")]
      = Except.error e :=
  c9_missing_field_rejected.1
    [("type", JVal.str "error"), ("error", JVal.str "boom")] rfl

/-- Claim C10: whenever `ws_connect` returns normally, its value is
`True` and a handle has been stored; consequently the branch of
`ws_keep_alive` that tests a falsy `ws_connect` return
(`failedReconnect`) is unreachable whenever `ws_connect` is the
source of the tested value. -/
theorem c10_connect_returns_true (res : ConnectOutcome)
    (p : Bool × Option WSHandle) (reg : Except LMKErr WSResponse)
    (hp : ws_connect res = Except.ok p) :
    (∃ h, p = (true, some h))
    ∧ ws_keep_alive_step (Except.map Prod.fst (ws_connect res)) reg
        ≠ Except.ok KeepAliveResult.failedReconnect := by
  cases res with
  | fail => exact absurd hp (by simp [ws_connect])
  | ok h =>
    constructor
    · injection hp with hv
      exact ⟨h, hv.symm⟩
    · simp only [ws_connect, Except.map]
      cases reg with
      | error e => simp [ws_keep_alive_step]
      | ok r =>
        by_cases hr : respType r = LMKWSResponseType.register <;>
          simp [ws_keep_alive_step, hr]

/-- Witness for C10 at a concrete successful handshake. -/
theorem c10_connect_returns_true_witness :
    (∃ h, ((true, some (⟨false⟩ : WSHandle)) : Bool × Option WSHandle)
        = (true, some h))
    ∧ ws_keep_alive_step
        (Except.map Prod.fst (ws_connect (ConnectOutcome.ok ⟨false⟩)))
        (Except.ok (WSResponse.success ⟨LMKWSResponseType.register, true, "ok"⟩))
        ≠ Except.ok KeepAliveResult.failedReconnect :=
  c10_connect_returns_true (ConnectOutcome.ok ⟨false⟩)
    (true, some ⟨false⟩)
    (Except.ok (WSResponse.success ⟨LMKWSResponseType.register, true, "ok"⟩))
    rfl

/-- Claim C8: `ws_send_notification` with `targets` omitted encodes a
wire object whose `targets` field is exactly the one-element array
`["client-*"]` (the `TARGETS_ALL_CLIENTS` default). -/
theorem c8_default_targets (n : LMKNotification) :
    jget (notificationDict n none) "targets"
      = some (JVal.arr [JVal.str "client-*"]) := by
  rfl

/-- Witness for C8 at a concrete notification. -/
theorem c8_default_targets_witness :
    jget (notificationDict ⟨none, none, none, none, none, none⟩ none) "targets"
      = some (JVal.arr [JVal.str "client-*"]) :=
  c8_default_targets ⟨none, none, none, none, none, none⟩

end LetMeKnow
